import Mathlib

/-!
Shallow embedding of the gb7 Game Boy emulator core (gb7-core), for checking
its natural-language specification.  Machine integers are modelled as `Nat`
with explicit truncation (`% 256`, `% 65536`) at the points where the Rust
code relies on fixed-width wrapping.  Rust operations that can panic
(out-of-bounds `Vec`/array indexing, `todo!`, explicitly unreachable match
arms) are modelled as `Option`-valued functions returning `none` at the
panic.  All definitions follow src/gb7-core/src (cartridge.rs, cpu.rs,
timers.rs, ppu.rs, lcd.rs, memory.rs, gameboy.rs), except where a doc
comment says `Modelled from the spec:`.
-/

/-- A Rust `Vec<u8>`: a length together with the byte contents.  Indexing
outside the length models the Rust panic as `none`. -/
structure Bytes where
  size : Nat
  data : Nat → Nat

/-- Rust `v[i]` on a `Vec<u8>`: panics (here `none`) when out of bounds. -/
def Bytes.get (b : Bytes) (i : Nat) : Option Nat :=
  if i < b.size then some (b.data i) else none

/-- Rust `v[i] = val` on a `Vec<u8>`: panics (here `none`) when out of bounds. -/
def Bytes.set (b : Bytes) (i v : Nat) : Option Bytes :=
  if i < b.size then
    some { b with data := fun j => if j = i then v else b.data j }
  else none

/-- cartridge.rs `NoMBC`. -/
structure NoMBC where
  rom : Bytes

/-- cartridge.rs `NoMBC::read`: `self.rom[addr as usize]`. -/
def NoMBC.read (c : NoMBC) (addr : Nat) : Option Nat :=
  c.rom.get addr

/-- cartridge.rs `NoMBC::write`: writing does nothing. -/
def NoMBC.write (c : NoMBC) (_addr _val : Nat) : Option NoMBC :=
  some c

/-- cartridge.rs `MBC1`. -/
structure MBC1 where
  rom_size : Nat
  ram_size : Nat
  rom : Bytes
  ram : Bytes
  active_rom_bank : Nat
  active_ram_bank : Nat
  ram_active : Bool
  banking_mode : Bool

/-- cartridge.rs `MBC1::new(rom, ram_size)`. -/
def MBC1.new (rom : Bytes) (ram_size : Nat) : MBC1 :=
  { rom_size := rom.size
    ram_size := ram_size
    rom := rom
    ram := { size := ram_size, data := fun _ => 0 }
    active_rom_bank := 1
    active_ram_bank := 0
    ram_active := false
    banking_mode := false }

/-- cartridge.rs `MBC1::read` (match on the address ranges; the catch-all
arm panics). -/
def MBC1.read (c : MBC1) (addr : Nat) : Option Nat :=
  if addr ≤ 0x3FFF then c.rom.get addr
  else if addr ≤ 0x7FFF then c.rom.get (c.active_rom_bank * 16384 + (addr - 0x4000))
  else if 0xA000 ≤ addr ∧ addr ≤ 0xBFFF then
    c.ram.get (c.active_ram_bank * 16384 + (addr - 0xA000))
  else none

/-- cartridge.rs `MBC1::write` (the if/else-if chain; addresses ≥ 0x8000
fall through every branch and leave the cartridge unchanged).
`self.active_rom_bank as u8` is the `% 256` truncation. -/
def MBC1.write (c : MBC1) (addr val : Nat) : Option MBC1 :=
  if addr < 0x2000 then
    some { c with ram_active := val &&& 0xF == 0xA }
  else if addr < 0x4000 then
    let bank_value := if val &&& 0x1F = 0 then 0x1 else val
    some { c with active_rom_bank := (bank_value &&& 0x1F) ||| ((c.active_rom_bank % 256) &&& 0xE0) }
  else if addr < 0x6000 then
    if c.banking_mode = false ∧ c.rom_size ≥ 1048576 then
      some { c with active_ram_bank := val &&& 0x3 }
    else if c.banking_mode = true ∧ c.ram_size = 32768 then
      some { c with active_rom_bank := (val &&& 0x60) ||| ((c.active_rom_bank % 256) &&& 0x9f) }
    else some c
  else if addr < 0x8000 then
    some { c with banking_mode := val == 0x1 }
  else some c

/-- cartridge.rs `MBC3`. -/
structure MBC3 where
  rom_size : Nat
  ram_size : Nat
  rom : Bytes
  ram : Bytes
  active_rom_bank : Nat
  active_ram_bank : Nat
  ram_active : Bool
  banking_mode : Bool

/-- cartridge.rs `MBC3::new(rom, ram_size)`. -/
def MBC3.new (rom : Bytes) (ram_size : Nat) : MBC3 :=
  { rom_size := rom.size
    ram_size := ram_size
    rom := rom
    ram := { size := ram_size, data := fun _ => 0 }
    active_rom_bank := 1
    active_ram_bank := 0
    ram_active := false
    banking_mode := false }

/-- cartridge.rs `MBC3::read` (the catch-all arm panics). -/
def MBC3.read (c : MBC3) (addr : Nat) : Option Nat :=
  if addr ≤ 0x3FFF then c.rom.get addr
  else if addr ≤ 0x7FFF then c.rom.get (c.active_rom_bank * 16384 + (addr - 0x4000))
  else if 0xA000 ≤ addr ∧ addr ≤ 0xBFFF then
    c.ram.get (c.active_ram_bank * 16384 + (addr - 0xA000))
  else none

/-- cartridge.rs `MBC3::write`.  The 0x4000–0x5FFF arm hits
`todo!("implement rtc registers")` for values above 0x03, and the
0x6000–0x7FFF arm hits `todo!("latch rtc register")`; both `todo!` panics
are modelled as `none`, as is the catch-all panic arm. -/
def MBC3.write (c : MBC3) (addr val : Nat) : Option MBC3 :=
  if addr ≤ 0x1FFF then
    some { c with ram_active := val == 0x0A }
  else if addr ≤ 0x3FFF then
    some { c with active_rom_bank := if val = 0 then 1 else val }
  else if addr ≤ 0x5FFF then
    if val ≤ 0x03 then some { c with active_ram_bank := val } else none
  else if addr ≤ 0x7FFF then
    none
  else if 0xA000 ≤ addr ∧ addr ≤ 0xBFFF then
    (c.ram.set (c.active_ram_bank * 16384 + (addr - 0xA000)) val).map
      (fun r => { c with ram := r })
  else none

/-- cartridge.rs `Cartridge`: the enum-dispatched cartridge variants. -/
inductive Cartridge where
  | noMBC (c : NoMBC)
  | mbc1 (c : MBC1)
  | mbc3 (c : MBC3)

/-- The enum-dispatched `CartMemory::read`. -/
def Cartridge.read : Cartridge → Nat → Option Nat
  | .noMBC c, addr => c.read addr
  | .mbc1 c, addr => c.read addr
  | .mbc3 c, addr => c.read addr

/-- The enum-dispatched `CartMemory::write`. -/
def Cartridge.write : Cartridge → Nat → Nat → Option Cartridge
  | .noMBC c, addr, val => (c.write addr val).map .noMBC
  | .mbc1 c, addr, val => (c.write addr val).map .mbc1
  | .mbc3 c, addr, val => (c.write addr val).map .mbc3

/-- cpu.rs `CpuRegisters`.  The `flags` field is the `CpuFlags` bitflags
value, carried as its raw `bits : u8` byte (Z = bit 7, N = 6, H = 5,
C = 4). -/
structure CpuRegisters where
  a : Nat
  flags : Nat
  b : Nat
  c : Nat
  d : Nat
  e : Nat
  h : Nat
  l : Nat

/-- cpu.rs `CpuRegisters::af`. -/
def CpuRegisters.af (r : CpuRegisters) : Nat :=
  ((r.a % 256) <<< 8) ||| (r.flags % 256)

/-- cpu.rs `CpuRegisters::set_af`: `a = (value >> 8) as u8` and
`flags.bits = value as u8` (the raw bits field is assigned, with no
masking of the low nibble). -/
def CpuRegisters.set_af (r : CpuRegisters) (value : Nat) : CpuRegisters :=
  { r with a := (value >>> 8) % 256, flags := value % 256 }

/-- cpu.rs `Cpu`. -/
structure Cpu where
  registers : CpuRegisters
  sp : Nat
  pc : Nat
  ime : Bool
  halted : Bool

/-- cpu.rs `Cpu::read_register` restricted to `Register::F`:
`self.registers.flags.bits`. -/
def Cpu.read_register_f (cpu : Cpu) : Nat :=
  cpu.registers.flags

/-- memory.rs `IORegs`: 512-byte register file indexed from 0xFF00. -/
structure IORegs where
  data : Nat → Nat

/-- memory.rs `IORegs::read`: `self.data[addr as usize - 0xFF00]`. -/
def IORegs.read (io : IORegs) (addr : Nat) : Nat :=
  io.data (addr - 0xFF00)

/-- memory.rs `IORegs::write`. -/
def IORegs.write (io : IORegs) (addr val : Nat) : IORegs :=
  { data := fun i => if i = addr - 0xFF00 then val else io.data i }

/-- timers.rs `Timers` (the Rust fields `div_partial` and `tima_partial`
are named `divPartial` and `timaPartial` here). -/
structure Timers where
  divPartial : Nat
  timaPartial : Nat

/-- The while loop inside timers.rs `Timers::tick` that drains the TIMA
sub-accumulator while it strictly exceeds the threshold.  An explicit
iteration budget (`fuel`) makes the recursion structural; each loop
iteration lowers the accumulator by `timer_step ≥ 16`, so passing the
accumulator itself as fuel is always sufficient and the fuel-exhausted
base case is never the result the Rust loop reaches. -/
def timaLoop : Nat → IORegs → Nat → Nat → IORegs × Nat
  | 0, io, timaPartial, _ => (io, timaPartial)
  | fuel + 1, io, timaPartial, timer_step =>
    if timer_step < timaPartial then
      let prev_tima := io.read 0xFF05
      let overflow := prev_tima + 1 ≥ 256
      let new_tima := (prev_tima + 1) % 256
      let io' :=
        if overflow then
          (io.write 0xFF05 (io.read 0xFF06)).write 0xFF0F (io.read 0xFF0F ||| 0b00100)
        else io.write 0xFF05 new_tima
      timaLoop fuel io' (timaPartial - timer_step) timer_step
    else (io, timaPartial)

/-- timers.rs `Timers::tick`: `t_cycles = m_cycles * 4` (u8 arithmetic);
the DIV prescaler uses `overflowing_add`; TIMA runs only when TAC bit 2 is
set, accumulating t-cycles into the 16-bit `timaPartial` and draining it
through the `while` loop above. -/
def Timers.tick (t : Timers) (io : IORegs) (m_cycles : Nat) : Timers × IORegs :=
  let t_cycles := (m_cycles * 4) % 256
  let res := (t.divPartial + t_cycles) % 256
  let inc_div := t.divPartial + t_cycles ≥ 256
  let io := if inc_div then io.write 0xFF04 ((io.read 0xFF04 + 1) % 256) else io
  let tac := io.read 0xFF07
  if tac &&& 0b100 ≠ 0 then
    let timaPartial := (t.timaPartial + t_cycles) % 65536
    let timer_step : Nat :=
      if tac &&& 0b011 = 0b00 then 1024
      else if tac &&& 0b011 = 0b01 then 16
      else if tac &&& 0b011 = 0b10 then 64
      else 256
    let (io, timaPartial) := timaLoop timaPartial io timaPartial timer_step
    ({ divPartial := res, timaPartial := timaPartial }, io)
  else
    ({ divPartial := res, timaPartial := t.timaPartial }, io)

/-- memory.rs `GBWorkRam` (the DMG work-RAM variant built by
`Gameboy::new_dmg`): an 8 KiB array indexed from 0xC000. -/
structure WorkRam where
  wram : Nat → Nat

/-- memory.rs `GBWorkRam::read`. -/
def WorkRam.read (w : WorkRam) (addr : Nat) : Nat :=
  w.wram (addr - 0xC000)

/-- memory.rs `GBWorkRam::write`. -/
def WorkRam.write (w : WorkRam) (addr val : Nat) : WorkRam :=
  { wram := fun i => if i = addr - 0xC000 then val else w.wram i }

/-- memory.rs `GBVideoRam` (the DMG video-RAM variant built by
`Gameboy::new_dmg`): an 8 KiB array indexed from 0x8000. -/
structure VideoRam where
  vram : Nat → Nat

/-- memory.rs `GBVideoRam::read`. -/
def VideoRam.read (v : VideoRam) (addr : Nat) : Nat :=
  v.vram (addr - 0x8000)

/-- memory.rs `GBVideoRam::write`. -/
def VideoRam.write (v : VideoRam) (addr val : Nat) : VideoRam :=
  { vram := fun i => if i = addr - 0x8000 then val else v.vram i }

/-- memory.rs `Oam`: a 160-byte array indexed from 0xFE00. -/
structure Oam where
  data : Nat → Nat

/-- memory.rs `Oam::read`. -/
def Oam.read (o : Oam) (addr : Nat) : Nat :=
  o.data (addr - 0xFE00)

/-- memory.rs `Oam::write`. -/
def Oam.write (o : Oam) (addr val : Nat) : Oam :=
  { data := fun i => if i = addr - 0xFE00 then val else o.data i }

/-- memory.rs `Oam::dma`: `copy_from_slice` replaces the whole 160-byte
array with the given data. -/
def Oam.dma (_o : Oam) (d : Nat → Nat) : Oam :=
  { data := d }

/-- memory.rs `HighRam`: a 512-byte array indexed from 0xFF80. -/
structure HighRam where
  data : Nat → Nat

/-- memory.rs `HighRam::read`. -/
def HighRam.read (h : HighRam) (addr : Nat) : Nat :=
  h.data (addr - 0xFF80)

/-- memory.rs `HighRam::write`. -/
def HighRam.write (h : HighRam) (addr val : Nat) : HighRam :=
  { data := fun i => if i = addr - 0xFF80 then val else h.data i }

/-- lcd.rs `Lcd`: the 23200-byte pixel array. -/
structure Lcd where
  pixels : Nat → Nat

/-- lcd.rs `Lcd::set_line`:
`self.pixels[line_num*160..(line_num+1)*160].copy_from_slice(&line)`.
The slice panics (`none`) when `(ly + 1) * 160` exceeds the 23200-byte
array, i.e. when `ly ≥ 145`. -/
def Lcd.set_line (lcd : Lcd) (ly : Nat) (line : Nat → Nat) : Option Lcd :=
  if (ly + 1) * 160 ≤ 23200 then
    some { pixels := fun i =>
      if ly * 160 ≤ i ∧ i < (ly + 1) * 160 then line (i - ly * 160) else lcd.pixels i }
  else none

/-- ppu.rs `PpuMode`. -/
inductive PpuMode where
  | HBlank
  | VBlank
  | OAMScan
  | Drawing
deriving DecidableEq

/-- ppu.rs `Ppu`. -/
structure Ppu where
  mode : PpuMode
  line_cycles : Nat
  reached_window : Bool
  window_line_counter : Nat

/-- ppu.rs `Ppu::default` (derived `Default`: `PpuMode::default()` is
`OAMScan`, counters zero). -/
def Ppu.default : Ppu :=
  { mode := .OAMScan, line_cycles := 0, reached_window := false, window_line_counter := 0 }

/-- ppu.rs `Ppu::req_vblank_interrupt`. -/
def Ppu.req_vblank_interrupt (io : IORegs) : IORegs :=
  io.write 0xFF0F (io.read 0xFF0F ||| 0b00000001)

/-- ppu.rs `Ppu::req_stat_interrupt`. -/
def Ppu.req_stat_interrupt (io : IORegs) : IORegs :=
  io.write 0xFF0F (io.read 0xFF0F ||| 0b00000010)

/-- Wrapping u8 subtraction (`u8::wrapping_sub`), for operands below 256. -/
def wsub8 (a b : Nat) : Nat :=
  (a + 256 - b % 256) % 256

/-- The signed tile-index conversion in ppu.rs:
`(tile_num as i8 as i16 + 128) as u16` for a byte `tile_num`. -/
def signedTileIndex (tile_num : Nat) : Nat :=
  if tile_num < 128 then tile_num + 128 else tile_num - 128

/-- ppu.rs `Ppu::apply_background_line`: the 21-tile-column by 8-pixel
loop nest, expressed as folds; `line` is the 160-byte scanline buffer. -/
def Ppu.apply_background_line (ly : Nat) (line : Nat → Nat) (vram : VideoRam)
    (io : IORegs) : Nat → Nat :=
  let lcdc := io.read 0xFF40
  let tile_mode_8000 := lcdc &&& 0b00010000 ≠ 0
  let scy := io.read 0xFF42
  let scx := io.read 0xFF43
  let bg_tilemap := if lcdc &&& 0b00001000 = 0 then 0x9800 else 0x9C00
  let bg_palette := io.read 0xFF47
  (List.range 21).foldl (fun line x_counter =>
    let tile_y := (ly + scy) &&& 0xFF
    let addr := bg_tilemap + ((x_counter + scx / 8) &&& 0x1F) + ((tile_y / 8) &&& 0x1F) * 32
    let tile_num := vram.read addr
    let tile_addr :=
      (if tile_mode_8000 then 0x8000 + tile_num * 16
       else 0x8800 + signedTileIndex tile_num * 16) + (tile_y % 8) * 2
    let b1 := vram.read tile_addr
    let b2 := vram.read (tile_addr + 1)
    (List.range 8).foldl (fun line px =>
      if x_counter * 8 + px > scx % 8 then
        let linepos := x_counter * 8 + px - scx % 8
        if linepos < 160 then
          let px_val := (if b1 &&& (1 <<< (7 - px)) ≠ 0 then 1 else 0) |||
            (if b2 &&& (1 <<< (7 - px)) ≠ 0 then 2 else 0)
          let color := (bg_palette >>> (px_val * 2)) &&& 0x3
          fun i => if i = linepos then color else line i
        else line
      else line) line) line

/-- ppu.rs `Ppu::apply_window_line`: returns the updated scanline buffer
and the updated `window_line_counter` (the method takes `&mut self` and
increments the counter once when the window is drawn). -/
def Ppu.apply_window_line (p : Ppu) (ly : Nat) (line : Nat → Nat)
    (vram : VideoRam) (io : IORegs) : (Nat → Nat) × Nat :=
  let lcdc := io.read 0xFF40
  let tile_mode_8000 := lcdc &&& 0b00010000 ≠ 0
  let window_tilemap := if lcdc &&& 0b01000000 = 0 then 0x9800 else 0x9C00
  let bg_palette := io.read 0xFF47
  let wy := io.read 0xFF4A
  let wx := io.read 0xFF4B
  if ly ≥ wy ∧ wx ≥ 7 ∧ wx < 167 then
    let line' := (List.range 20).foldl (fun line x_counter =>
      let addr := window_tilemap + x_counter + (p.window_line_counter / 8) * 32
      let tile_num := vram.read addr
      let tile_addr :=
        (if tile_mode_8000 then 0x8000 + tile_num * 16
         else 0x8800 + signedTileIndex tile_num * 16) + (p.window_line_counter % 8) * 2
      let b1 := vram.read tile_addr
      let b2 := vram.read (tile_addr + 1)
      (List.range 8).foldl (fun line px =>
        let linepos := x_counter * 8 + (px + wx - 7)
        if linepos < 160 then
          let px_val := (if b1 &&& (1 <<< (7 - px)) ≠ 0 then 1 else 0) |||
            (if b2 &&& (1 <<< (7 - px)) ≠ 0 then 2 else 0)
          let color := (bg_palette >>> (px_val * 2)) &&& 0x3
          fun i => if i = linepos then color else line i
        else line) line) line
    (line', p.window_line_counter + 1)
  else (line, p.window_line_counter)

/-- The per-OAM-entry loop state of ppu.rs `Ppu::apply_sprite_line`:
the sprite scanline buffer, the per-column priority (sprite x) array, the
count of buffered sprites, and whether the `break` after 10 sprites has
fired. -/
structure SpriteLoopState where
  sprite_line : Nat → Nat
  priority : Nat → Nat
  buffered_sprites : Nat
  stopped : Bool

/-- ppu.rs `Ppu::apply_sprite_line`: iterates the 40 OAM entries (each 4
bytes `(y, x, tile, flags)`), accumulating into a sprite buffer and a
priority array, stopping after 10 buffered sprites, then copies non-zero
sprite pixels over the line.  u8 additions that can wrap are reduced
`% 256`. -/
def Ppu.apply_sprite_line (ly : Nat) (line : Nat → Nat) (vram : VideoRam)
    (oam : Oam) (io : IORegs) : Nat → Nat :=
  let lcdc := io.read 0xFF40
  let tall_sprite_mode := lcdc &&& 0b00000100 ≠ 0
  let sprite_height : Nat := if tall_sprite_mode then 16 else 8
  let init : SpriteLoopState :=
    { sprite_line := fun _ => 0, priority := fun _ => 0xFF,
      buffered_sprites := 0, stopped := false }
  let final := (List.range 40).foldl (fun (st : SpriteLoopState) entry =>
    if st.stopped then st
    else
      let y := oam.data (4 * entry)
      let x := oam.data (4 * entry + 1)
      let tidx := oam.data (4 * entry + 2) &&& (if tall_sprite_mode then 0xFE else 0xFF)
      let flags := oam.data (4 * entry + 3)
      let st' :=
        if x > 0 ∧ (ly + 16) % 256 ≥ y ∧ (ly + 16) % 256 < (y + sprite_height) % 256 then
          let background_priority := flags &&& 0b10000000 ≠ 0
          let yflip := flags &&& 0b01000000 ≠ 0
          let xflip := flags &&& 0b00100000 ≠ 0
          let sprite_palette :=
            if flags &&& 0b00010000 ≠ 0 then io.read 0xFF49 else io.read 0xFF48
          let y_line_skew :=
            if yflip then wsub8 (sprite_height - 1) (wsub8 ((ly + 16) % 256) y)
            else (ly + 16) % 256 - y
          let tile_addr := 0x8000 + (tidx * 16 + y_line_skew * 2)
          let b1 := vram.read tile_addr
          let b2 := vram.read (tile_addr + 1)
          let st1 := { st with buffered_sprites := st.buffered_sprites + 1 }
          (List.range 8).foldl (fun (st : SpriteLoopState) px =>
            if (x + px) % 256 ≥ 8 then
              let linepos := (x + px) % 256 - 8
              if linepos > 0 ∧ linepos < 160 then
                let sprite_pos := if xflip then px else 7 - px
                let px_val := (if b1 &&& (1 <<< sprite_pos) ≠ 0 then 1 else 0) |||
                  (if b2 &&& (1 <<< sprite_pos) ≠ 0 then 2 else 0)
                let color := (sprite_palette >>> (px_val * 2)) &&& 0x3
                if st.priority linepos > x then
                  let pr := fun i => if i = linepos then x else st.priority i
                  if color = 0 then
                    { st with
                        priority := pr
                        sprite_line := fun i => if i = linepos then line linepos else st.sprite_line i }
                  else if line linepos = 0 ∨ ¬background_priority then
                    { st with
                        priority := pr
                        sprite_line := fun i => if i = linepos then color else st.sprite_line i }
                  else { st with priority := pr }
                else st
              else st
            else st) st1
        else st
      if st'.buffered_sprites ≥ 10 then { st' with stopped := true } else st')
    init
  fun i => if i < 160 ∧ final.sprite_line i ≠ 0 then final.sprite_line i else line i

/-- ppu.rs `Ppu::get_line`: composes background, window (which updates the
window line counter) and sprites according to LCDC bits 0, 5 and 1;
returns the 160-byte line and the updated `Ppu`. -/
def Ppu.get_line (p : Ppu) (ly : Nat) (vram : VideoRam) (oam : Oam)
    (io : IORegs) : (Nat → Nat) × Ppu :=
  let line : Nat → Nat := fun _ => 0
  let lcdc := io.read 0xFF40
  let (line, p) :=
    if lcdc &&& 0b00000001 ≠ 0 then
      let line := Ppu.apply_background_line ly line vram io
      if lcdc &&& 0b00100000 ≠ 0 then
        let (line, wlc) := p.apply_window_line ly line vram io
        (line, { p with window_line_counter := wlc })
      else (line, p)
    else (line, p)
  let line := if lcdc &&& 0b00000010 ≠ 0 then Ppu.apply_sprite_line ly line vram oam io else line
  (line, p)

/-- ppu.rs `Ppu::move_to_next_line`: advances LY mod 154, tracks the
window latch, raises LYC / mode-entry STAT interrupts and the VBlank
interrupt, subtracts a scanline of cycles, and picks the next mode. -/
def Ppu.move_to_next_line (p : Ppu) (io : IORegs) : Ppu × IORegs :=
  let new_ly := ((io.read 0xFF44 + 1) % 256) % 154
  let p := if new_ly = io.read 0xFF4A then { p with reached_window := true } else p
  let io := io.write 0xFF44 new_ly
  let lyc := io.read 0xFF45
  let stat := io.read 0xFF41
  let io := if new_ly = lyc ∧ stat &&& 0b01000000 ≠ 0 then Ppu.req_stat_interrupt io else io
  let p := { p with line_cycles := p.line_cycles - 456 }
  if new_ly ≥ 144 then
    if p.mode ≠ PpuMode.VBlank then
      let io := if stat &&& 0b00010000 ≠ 0 then Ppu.req_stat_interrupt io else io
      let io := Ppu.req_vblank_interrupt io
      ({ p with mode := .VBlank, reached_window := false, window_line_counter := 0 }, io)
    else ({ p with mode := .VBlank }, io)
  else
    let io := if stat &&& 0b00100000 ≠ 0 then Ppu.req_stat_interrupt io else io
    ({ p with mode := .OAMScan }, io)

/-- ppu.rs `Ppu::tick`: accumulate t-cycles, run the (mode, line_cycles)
transition match (500-line arm order preserved: the 456-boundary arm is
checked first), then rewrite STAT bits 0–2.  `none` models the
`Lcd::set_line` slice panic. -/
def Ppu.tick (p : Ppu) (m_cycles : Nat) (vram : VideoRam) (oam : Oam)
    (io : IORegs) (lcd : Lcd) : Option (Ppu × IORegs × Lcd) := do
  let t_cycles := (m_cycles * 4) % 256
  let p := { p with line_cycles := p.line_cycles + t_cycles }
  let ly := io.read 0xFF44
  let lyc := io.read 0xFF45
  let stat := io.read 0xFF41
  let (p, io, lcd) ←
    if 456 ≤ p.line_cycles then
      let (p, io) := p.move_to_next_line io
      pure (p, io, lcd)
    else if p.mode = PpuMode.OAMScan ∧ 80 ≤ p.line_cycles then
      let (line, p) := p.get_line ly vram oam io
      let lcd ← lcd.set_line ly line
      pure ({ p with mode := .Drawing }, io, lcd)
    else if p.mode = PpuMode.Drawing ∧ 252 ≤ p.line_cycles then
      let io := if stat &&& 0b00001000 ≠ 0 then Ppu.req_stat_interrupt io else io
      pure ({ p with mode := .HBlank }, io, lcd)
    else
      pure (p, io, lcd)
  let new_stat := if ly = lyc then stat ||| 0b00000100 else stat &&& 0b11111011
  let new_stat := new_stat &&& 0b11111100
  let new_stat := new_stat |||
    (match p.mode with
     | .HBlank => 0b00
     | .VBlank => 0b01
     | .OAMScan => 0b10
     | .Drawing => 0b11)
  pure (p, io.write 0xFF41 new_stat, lcd)

/-- joypad.rs `Joypad`. -/
structure Joypad where
  state : Nat

/-- gameboy.rs `Gameboy` instantiated for DMG (`Gameboy::new_dmg` builds
the `GBWorkRam` / `GBVideoRam` enum variants). -/
structure Gameboy where
  cpu : Cpu
  ppu : Ppu
  lcd : Lcd
  joypad : Joypad
  timers : Timers
  cartridge : Cartridge
  wram : WorkRam
  vram : VideoRam
  oam : Oam
  io_regs : IORegs
  high_ram : HighRam

/-- gameboy.rs `Gameboy::read`: the bus address decoder. -/
def Gameboy.read (g : Gameboy) (addr : Nat) : Option Nat :=
  if addr ≤ 0x7FFF then g.cartridge.read addr
  else if addr ≤ 0x9FFF then some (g.vram.read addr)
  else if addr ≤ 0xBFFF then g.cartridge.read addr
  else if addr ≤ 0xDFFF then some (g.wram.read addr)
  else if addr ≤ 0xFDFF then some (g.wram.read (addr - 0x2000))
  else if addr ≤ 0xFE9F then some (g.oam.read addr)
  else if addr ≤ 0xFEFF then some 0xFF
  else if addr ≤ 0xFF7F then some (g.io_regs.read addr)
  else some (g.high_ram.read addr)

/-- The 160-byte block assembled by the OAM-DMA loop in
gameboy.rs `Gameboy::write` (`data[i] = self.read(value_base | i)` for
`i in 0x00..=0x9F`).  The reads are pure, so the sequential loop is
expressed pointwise; it fails (`none`) iff any of the 160 bus reads
panics. -/
def Gameboy.dmaBlock (g : Gameboy) (value_base : Nat) : Option (Nat → Nat) :=
  if (List.range 160).all (fun i => (g.read (value_base ||| i)).isSome) then
    some (fun i => (g.read (value_base ||| i)).getD 0)
  else none

/-- gameboy.rs `Gameboy::write`: the bus write decoder, including the
OAM-DMA side effect of a write to 0xFF46 (`value_base = (val as u16) << 8`,
then 160 bus reads copied into OAM). -/
def Gameboy.write (g : Gameboy) (addr val : Nat) : Option Gameboy :=
  if addr ≤ 0x7FFF then (g.cartridge.write addr val).map (fun c => { g with cartridge := c })
  else if addr ≤ 0x9FFF then some { g with vram := g.vram.write addr val }
  else if addr ≤ 0xBFFF then (g.cartridge.write addr val).map (fun c => { g with cartridge := c })
  else if addr ≤ 0xDFFF then some { g with wram := g.wram.write addr val }
  else if addr ≤ 0xFDFF then some { g with wram := g.wram.write (addr - 0x2000) val }
  else if addr ≤ 0xFE9F then some { g with oam := g.oam.write addr val }
  else if addr ≤ 0xFEFF then some g
  else if addr ≤ 0xFF7F then
    let g1 := { g with io_regs := g.io_regs.write addr val }
    if addr = 0xFF46 then
      (g1.dmaBlock ((val % 256) <<< 8)).map (fun d => { g1 with oam := g1.oam.dma d })
    else some g1
  else some { g with high_ram := g.high_ram.write addr val }

/-- gameboy.rs `Gameboy::stack_push`: `self.cpu.sp -= 1` (u16 wrapping)
then a bus write at the new SP. -/
def Gameboy.stack_push (g : Gameboy) (val : Nat) : Option Gameboy :=
  let sp := (g.cpu.sp + 65535) % 65536
  let g := { g with cpu := { g.cpu with sp := sp } }
  g.write sp val

/-- gameboy.rs `Gameboy::stack_push_word`: high byte first, then low
byte. -/
def Gameboy.stack_push_word (g : Gameboy) (val : Nat) : Option Gameboy := do
  let g ← g.stack_push ((val >>> 8) % 256)
  g.stack_push (val % 256)

/-- `u8::trailing_zeros`, unrolled over the 8 bits. -/
def u8_trailing_zeros (x : Nat) : Nat :=
  if x % 2 = 1 then 0
  else if x / 2 % 2 = 1 then 1
  else if x / 4 % 2 = 1 then 2
  else if x / 8 % 2 = 1 then 3
  else if x / 16 % 2 = 1 then 4
  else if x / 32 % 2 = 1 then 5
  else if x / 64 % 2 = 1 then 6
  else if x / 128 % 2 = 1 then 7
  else 8

/-- gameboy.rs `Gameboy::check_interrupts`: `interrupts = IE & IF` read
through the bus; `Some(trailing_zeros)` when nonzero.  The outer `Option`
is the panic layer of the two bus reads (both always succeed). -/
def Gameboy.check_interrupts (g : Gameboy) : Option (Option Nat) := do
  let if_reg ← g.read 0xFF0F
  let ie ← g.read 0xFFFF
  let interrupts := ie &&& if_reg
  pure (if interrupts = 0 then none else some (u8_trailing_zeros interrupts))

/-- gameboy.rs `Gameboy::rst`: push PC, jump to the vector. -/
def Gameboy.rst (g : Gameboy) (vector : Nat) : Option Gameboy := do
  let g ← g.stack_push_word g.cpu.pc
  pure { g with cpu := { g.cpu with pc := vector } }

/-- gameboy.rs `Gameboy::service_interrupt`: clear IME, clear this
interrupt's IF bit through the bus (`!(1 << n)` on u8 is
`255 ^^^ (1 <<< n)` for `n ≤ 7`), then `rst(0x40 + 8 * n)`. -/
def Gameboy.service_interrupt (g : Gameboy) (interrupt_num : Nat) : Option Gameboy := do
  let g := { g with cpu := { g.cpu with ime := false } }
  let if_reg ← g.read 0xFF0F
  let g ← g.write 0xFF0F (if_reg &&& (255 ^^^ ((1 <<< interrupt_num) % 256)))
  g.rst (0x40 + 8 * interrupt_num)

/-- The result of the interrupt-dispatch phase of gameboy.rs
`Gameboy::execute` (everything before an opcode would be fetched):
either an interrupt was serviced for the given m-cycle cost, or execution
proceeds to the opcode fetch, or the halted CPU idles for the given
cost. -/
inductive ExecOutcome where
  | interruptServiced (m_cycles : Nat)
  | runOpcode
  | haltIdle (m_cycles : Nat)
deriving DecidableEq

/-- gameboy.rs `Gameboy::execute`, up to (but not including) the opcode
fetch/dispatch and the component ticks: check interrupts, wake a halted
CPU on any pending interrupt, and service the interrupt when IME is set
(5 m-cycles); a halted CPU with nothing to service idles for 1 m-cycle.
The `runOpcode` outcome marks the branch where the Rust code goes on to
fetch and execute one opcode. -/
def Gameboy.executePhase (g : Gameboy) : Option (Gameboy × ExecOutcome) := do
  let interrupt ← g.check_interrupts
  let g := if g.cpu.halted && interrupt.isSome then
      { g with cpu := { g.cpu with halted := false } }
    else g
  match g.cpu.ime, interrupt with
  | true, some interrupt_num => do
    let g ← g.service_interrupt interrupt_num
    pure (g, .interruptServiced 5)
  | _, _ =>
    match g.cpu.halted with
    | false => pure (g, .runOpcode)
    | true => pure (g, .haltIdle 1)

/-- The pending-interrupt mask `IE & IF` of a Gameboy state, as computed
by `check_interrupts` (both bus reads always succeed; `getD` strips the
panic layer). -/
def Gameboy.pending_mask (g : Gameboy) : Nat :=
  ((g.read 0xFFFF).getD 0) &&& ((g.read 0xFF0F).getD 0)

/-- Modelled from the spec: `Cpu::init` is called by `Gameboy::init` from
`Gameboy::new_dmg` but its definition is not under src/ (cpu.rs declares
`Cpu` without an `init` method).  The spec gives the post-boot-ROM DMG
register values: A=0x01, F=0xB0, B=0x00, C=0x13, D=0x00, E=0xD8, H=0x01,
L=0x4D, SP=0xFFFE, PC=0x0100, IME=false, HALT=false. -/
def Cpu.init : Cpu :=
  { registers :=
      { a := 0x01, flags := 0xB0, b := 0x00, c := 0x13
        d := 0x00, e := 0xD8, h := 0x01, l := 0x4D }
    sp := 0xFFFE
    pc := 0x0100
    ime := false
    halted := false }

/-- gameboy.rs `Gameboy::new_dmg`: default components (zeroed memories,
`Joypad { state: 0xFF }`, default PPU/LCD/timers) plus the given
cartridge, then `init` (which runs the spec-modelled `Cpu::init`). -/
def Gameboy.new_dmg (cartridge : Cartridge) : Gameboy :=
  { cpu := Cpu.init
    ppu := Ppu.default
    lcd := { pixels := fun _ => 0 }
    joypad := { state := 0xFF }
    timers := { divPartial := 0, timaPartial := 0 }
    cartridge := cartridge
    wram := { wram := fun _ => 0 }
    vram := { vram := fun _ => 0 }
    oam := { data := fun _ => 0 }
    io_regs := { data := fun _ => 0 }
    high_ram := { data := fun _ => 0 } }

/-! Concrete states used as inputs of the evaluation theorems below. -/

/-- An MBC1 cartridge with a 1 MiB ROM and 32 KiB RAM, in ROM-banking mode
(`banking_mode = false`, the reset value), RAM bank 1 selected. -/
def mbc1RomMode : MBC1 :=
  { rom_size := 0x100000, ram_size := 32768
    rom := { size := 0x100000, data := fun _ => 0 }
    ram := { size := 32768, data := fun _ => 0 }
    active_rom_bank := 1, active_ram_bank := 1
    ram_active := false, banking_mode := false }

/-- The same MBC1 cartridge with the banking-mode latch set to RAM-banking
mode. -/
def mbc1RamMode : MBC1 :=
  { mbc1RomMode with banking_mode := true }

/-- The I/O register file with TAC = 0x05 (timer enabled, threshold 16
t-cycles), TMA = 0xAB, TIMA = 0xFF (offsets from 0xFF00: TIMA at 5, TMA
at 6, TAC at 7). -/
def timerRegs : IORegs :=
  { data := fun i => if i = 5 then 0xFF else if i = 6 then 0xAB else if i = 7 then 0x05 else 0 }

/-- A fresh MBC3 cartridge with a 32 KiB ROM and 8 KiB RAM. -/
def mbc3Cart : MBC3 := MBC3.new { size := 0x8000, data := fun _ => 0 } 8192

/-- A fresh MBC1 cartridge with a 32 KiB ROM and 8 KiB RAM whose RAM has
been enabled (the state after writing 0x0A to 0x0000). -/
def mbc1RamCart : MBC1 :=
  { MBC1.new { size := 0x8000, data := fun _ => 0 } 8192 with ram_active := true }

/-- A NoMBC cartridge with a 32 KiB ROM. -/
def nombcCart : NoMBC := { rom := { size := 0x8000, data := fun _ => 0 } }

/-- A fresh MBC1 cartridge with a 32 KiB ROM and no RAM (ram size code
0). -/
def mbc1NoRam : MBC1 := MBC1.new { size := 0x8000, data := fun _ => 0 } 0

/-- A NoMBC cartridge wrapped as a `Cartridge`. -/
def cart0 : Cartridge := .noMBC nombcCart

/-- A Gameboy about to service the timer interrupt: IME set, halted,
SP = 0xD000 (in WRAM), PC = 0x1234, IF = 0b100 (timer) and IE = 0b100. -/
def gInt : Gameboy :=
  { Gameboy.new_dmg cart0 with
      cpu := { registers := (Cpu.init).registers, sp := 0xD000, pc := 0x1234
               ime := true, halted := true }
      io_regs := { data := fun i => if i = 0x0F then 0b100 else 0 }
      high_ram := { data := fun i => if i = 0x7F then 0b100 else 0 } }

/-- I/O registers with LCDC = 0x01 (background on, LCD-enable bit 7
clear) and BGP = 0x01 (palette mapping color index 0 to shade 1). -/
def ppuRegs : IORegs :=
  { data := fun i => if i = 0x40 then 0x01 else if i = 0x47 then 0x01 else 0 }

/-- All-zero video RAM. -/
def vram0 : VideoRam := { vram := fun _ => 0 }

/-- All-zero OAM. -/
def oam0 : Oam := { data := fun _ => 0 }

/-- An all-zero (blank) LCD. -/
def lcd0 : Lcd := { pixels := fun _ => 0 }

set_option maxRecDepth 100000

/-! Bus lemmas: how `Gameboy::read` / `Gameboy::write` act on each address
region. -/

/-- A bus read in 0xC000–0xDFFF lands in work RAM. -/
theorem Gameboy.read_wram_range (g : Gameboy) (addr : Nat) (h1 : 0xC000 ≤ addr)
    (h2 : addr ≤ 0xDFFF) : g.read addr = some (g.wram.read addr) := by
  unfold Gameboy.read
  repeat rw [if_neg (by omega)]
  rw [if_pos (by omega)]

/-- A bus read in 0xFE00–0xFE9F lands in OAM. -/
theorem Gameboy.read_oam_range (g : Gameboy) (addr : Nat) (h1 : 0xFE00 ≤ addr)
    (h2 : addr ≤ 0xFE9F) : g.read addr = some (g.oam.read addr) := by
  unfold Gameboy.read
  repeat rw [if_neg (by omega)]
  rw [if_pos (by omega)]

/-- A bus read in 0xFF00–0xFF7F lands in the I/O register file. -/
theorem Gameboy.read_io_range (g : Gameboy) (addr : Nat) (h1 : 0xFF00 ≤ addr)
    (h2 : addr ≤ 0xFF7F) : g.read addr = some (g.io_regs.read addr) := by
  unfold Gameboy.read
  repeat rw [if_neg (by omega)]
  rw [if_pos (by omega)]

/-- A bus read at or above 0xFF80 lands in high RAM. -/
theorem Gameboy.read_hram_range (g : Gameboy) (addr : Nat) (h1 : 0xFF80 ≤ addr) :
    g.read addr = some (g.high_ram.read addr) := by
  unfold Gameboy.read
  repeat rw [if_neg (by omega)]

/-- A bus write in 0xC000–0xDFFF updates work RAM. -/
theorem Gameboy.write_wram_range (g : Gameboy) (addr val : Nat) (h1 : 0xC000 ≤ addr)
    (h2 : addr ≤ 0xDFFF) :
    g.write addr val = some { g with wram := g.wram.write addr val } := by
  unfold Gameboy.write
  repeat rw [if_neg (by omega)]
  rw [if_pos (by omega)]

/-- A bus write in 0xFF00–0xFF7F other than to 0xFF46 only updates the I/O
register file. -/
theorem Gameboy.write_io_plain (g : Gameboy) (addr val : Nat) (h1 : 0xFF00 ≤ addr)
    (h2 : addr ≤ 0xFF7F) (h3 : addr ≠ 0xFF46) :
    g.write addr val = some { g with io_regs := g.io_regs.write addr val } := by
  unfold Gameboy.write
  repeat rw [if_neg (by omega)]
  rw [if_pos (by omega), if_neg h3]

/-- A bus write to 0xFF46 stores the value in the I/O file and then runs an
OAM DMA from `(val % 256) <<< 8`. -/
theorem Gameboy.write_dma (g : Gameboy) (val : Nat) :
    g.write 0xFF46 val =
      (({ g with io_regs := g.io_regs.write 0xFF46 val }).dmaBlock ((val % 256) <<< 8)).map
        (fun d => { g with io_regs := g.io_regs.write 0xFF46 val,
                           oam := ({ g with io_regs := g.io_regs.write 0xFF46 val }).oam.dma d }) := by
  unfold Gameboy.write
  norm_num

/-- Reading back an I/O register just written returns the written value. -/
theorem IORegs.io_write_read_back (io : IORegs) (a v : Nat) : (io.write a v).read a = v := by
  simp [IORegs.read, IORegs.write]

/-- Reading back a WRAM byte just written returns the written value. -/
theorem WorkRam.wram_write_read_back (w : WorkRam) (a v : Nat) : (w.write a v).read a = v := by
  simp [WorkRam.read, WorkRam.write]

/-- A WRAM write at a different array offset does not change a read. -/
theorem WorkRam.wram_write_read_other (w : WorkRam) (a b v : Nat) (h : a - 0xC000 ≠ b - 0xC000) :
    (w.write b v).read a = w.read a := by
  simp only [WorkRam.read, WorkRam.write, if_neg h]

/-- Or-ing a byte-sized offset into 0xC000 is addition (the two have no
common bits). -/
theorem lor_c000 : ∀ j < 256, 0xC000 ||| j = 0xC000 + j := by decide

/-- The trailing-zero count of a nonzero byte is at most 7. -/
theorem u8tz_le_7 : ∀ x < 256, x ≠ 0 → u8_trailing_zeros x ≤ 7 := by decide

/-- Every bit position up to 7 is set in 0xFF. -/
theorem testBit_255 : ∀ n ≤ 7, (255 : Nat).testBit n = true := by decide

/-- Binding an `Option` computation on a `some` reduces to applying the
continuation. -/
theorem optionSomeBind (a : α) (f : α → Option β) : (some a >>= f) = f a := rfl

/-- Closed form of `Gameboy::stack_push` when SP stays inside WRAM:
decrement SP and store the byte at the new SP. -/
theorem Gameboy.stack_push_eq (g : Gameboy) (v : Nat)
    (h1 : 0xC001 ≤ g.cpu.sp) (h2 : g.cpu.sp ≤ 0xDFFF + 1) :
    g.stack_push v = some { g with
      cpu := { g.cpu with sp := g.cpu.sp - 1 }
      wram := g.wram.write (g.cpu.sp - 1) v } := by
  have e1 : (g.cpu.sp + 65535) % 65536 = g.cpu.sp - 1 := by omega
  show Gameboy.write { g with cpu := { g.cpu with sp := (g.cpu.sp + 65535) % 65536 } }
      ((g.cpu.sp + 65535) % 65536) v = _
  rw [e1, Gameboy.write_wram_range _ _ _ (by omega) (by omega)]

/-- Closed form of `Gameboy::stack_push_word` when SP stays inside WRAM:
high byte at SP-1, low byte at SP-2. -/
theorem Gameboy.stack_push_word_eq (g : Gameboy) (val : Nat)
    (h1 : 0xC002 ≤ g.cpu.sp) (h2 : g.cpu.sp ≤ 0xDFFF) :
    g.stack_push_word val = some { g with
      cpu := { g.cpu with sp := g.cpu.sp - 2 }
      wram := (g.wram.write (g.cpu.sp - 1) ((val >>> 8) % 256)).write
        (g.cpu.sp - 2) (val % 256) } := by
  show (g.stack_push ((val >>> 8) % 256) >>= fun g2 => g2.stack_push (val % 256)) = _
  rw [Gameboy.stack_push_eq g _ (by omega) (by omega), optionSomeBind]
  show Gameboy.stack_push { g with
      cpu := { g.cpu with sp := g.cpu.sp - 1 }
      wram := g.wram.write (g.cpu.sp - 1) ((val >>> 8) % 256) } (val % 256) = _
  rw [Gameboy.stack_push_eq _ _
    (by show (0xC001 : Nat) ≤ g.cpu.sp - 1; omega)
    (by show g.cpu.sp - 1 ≤ (0xDFFF : Nat) + 1; omega)]
  show some _ = _
  have e : g.cpu.sp - 1 - 1 = g.cpu.sp - 2 := by omega
  rw [e]

/-- Closed form of `Gameboy::rst` when SP points into WRAM: push PC
(high then low) and jump to the vector. -/
theorem Gameboy.rst_eq (g : Gameboy) (vector : Nat)
    (h1 : 0xC002 ≤ g.cpu.sp) (h2 : g.cpu.sp ≤ 0xDFFF) :
    g.rst vector = some { g with
      cpu := { g.cpu with sp := g.cpu.sp - 2, pc := vector }
      wram := (g.wram.write (g.cpu.sp - 1) ((g.cpu.pc >>> 8) % 256)).write
        (g.cpu.sp - 2) (g.cpu.pc % 256) } := by
  unfold Gameboy.rst
  rw [Gameboy.stack_push_word_eq g _ h1 h2, optionSomeBind]
  rfl

/-- Closed form of `Gameboy::service_interrupt` when SP points into WRAM
(away from the region boundaries): IME cleared, the interrupt bit masked
out of IF, PC pushed high-then-low at SP-1 and SP-2, and a jump to
0x40 + 8*n. -/
theorem Gameboy.service_interrupt_eq (g : Gameboy) (n : Nat)
    (hsp1 : 0xC002 ≤ g.cpu.sp) (hsp2 : g.cpu.sp ≤ 0xDFFF) :
    g.service_interrupt n = some { g with
      cpu := { g.cpu with ime := false, sp := g.cpu.sp - 2, pc := 0x40 + 8 * n }
      io_regs := g.io_regs.write 0xFF0F
        (g.io_regs.read 0xFF0F &&& (255 ^^^ (1 <<< n) % 256))
      wram := (g.wram.write (g.cpu.sp - 1) ((g.cpu.pc >>> 8) % 256)).write
        (g.cpu.sp - 2) (g.cpu.pc % 256) } := by
  show (Gameboy.read { g with cpu := { g.cpu with ime := false } } 0xFF0F >>= fun if_reg =>
    Gameboy.write { g with cpu := { g.cpu with ime := false } } 0xFF0F
        (if_reg &&& (255 ^^^ (1 <<< n) % 256)) >>= fun g2 =>
    Gameboy.rst g2 (0x40 + 8 * n)) = _
  rw [Gameboy.read_io_range _ 0xFF0F (by omega) (by omega), optionSomeBind]
  beta_reduce
  rw [Gameboy.write_io_plain _ 0xFF0F _ (by omega) (by omega) (by omega), optionSomeBind]
  beta_reduce
  rw [Gameboy.rst_eq _ _
    (by show (0xC002 : Nat) ≤ g.cpu.sp; exact hsp1)
    (by show g.cpu.sp ≤ (0xDFFF : Nat); exact hsp2)]

/-- C1: evaluation of `MBC1::write` in the 0x4000–0x5FFF range.  In
ROM-banking mode (`banking_mode = false`) with a 1 MiB ROM, writing 0x62
leaves the active ROM bank at 1 and instead sets the active RAM bank to
0x62 &&& 3 = 2; in RAM-banking mode with 32 KiB RAM, the same write sets
ROM-bank bits 5–6 (bank 0x61) and leaves the RAM bank at 1.  This refutes
the claim (and matches neither the spec nor the code's own comments,
which say the two roles are the other way around). -/
theorem mbc1_banked_write_swaps_rom_and_ram_roles :
    (mbc1RomMode.write 0x4000 0x62).map (fun m => (m.active_rom_bank, m.active_ram_bank)) =
      some (1, 2) ∧
    (mbc1RamMode.write 0x4000 0x62).map (fun m => (m.active_rom_bank, m.active_ram_bank)) =
      some (0x61, 1) := by
  constructor <;> decide

/-- C2: evaluation of `Timers::tick` with TAC = 0x05 (enabled, threshold
16), TMA = 0xAB, TIMA = 0xFF, for 4 m-cycles = exactly 16 t-cycles.  The
`while timaPartial > timer_step` loop does not fire at equality, so TIMA
stays 0xFF, IF bit 2 stays clear, and the whole 16 t-cycles remain in the
sub-accumulator — the spec's timer-overflow scenario (TIMA = 0xAB, IF bit
2 set) does not happen. -/
theorem timer_exact_threshold_does_not_increment :
    (Timers.tick { divPartial := 0, timaPartial := 0 } timerRegs 4).2.read 0xFF05 = 0xFF ∧
    (Timers.tick { divPartial := 0, timaPartial := 0 } timerRegs 4).2.read 0xFF0F &&& 0b100 = 0 ∧
    (Timers.tick { divPartial := 0, timaPartial := 0 } timerRegs 4).1.timaPartial = 16 := by
  refine ⟨by decide, by decide, by decide⟩

/-- C3: the interrupt-dispatch phase of `Gameboy::execute`.  When
`pending = IE & IF` is nonzero (and SP points into WRAM, away from the
region edges, with IF a byte), the halted flag is cleared regardless of
IME; if IME is clear the CPU just proceeds to the fetch, and if IME is set
the CPU clears IME, clears exactly the lowest-set pending bit of IF
(`u8_trailing_zeros`, i.e. priority VBlank=0, STAT=1, Timer=2, Serial=3,
Joypad=4), pushes PC high/low at SP−1/SP−2, jumps to 0x40 + 8·bit, and
the step costs 5 m-cycles. -/
theorem interrupt_dispatch (g : Gameboy)
    (hp : g.pending_mask ≠ 0)
    (hif : (g.read 0xFF0F).getD 0 < 256)
    (hsp1 : 0xC002 ≤ g.cpu.sp) (hsp2 : g.cpu.sp ≤ 0xDFFF) :
    (g.cpu.ime = false →
      g.executePhase = some ({ g with cpu := { g.cpu with halted := false } }, .runOpcode)) ∧
    (g.cpu.ime = true →
      ∃ g', g.executePhase = some (g', .interruptServiced 5) ∧
        g'.cpu.ime = false ∧ g'.cpu.halted = false ∧
        g'.cpu.pc = 0x40 + 8 * u8_trailing_zeros g.pending_mask ∧
        g'.cpu.sp = g.cpu.sp - 2 ∧
        ((g'.read 0xFF0F).getD 0).testBit (u8_trailing_zeros g.pending_mask) = false ∧
        (∀ k, k ≠ u8_trailing_zeros g.pending_mask →
          ((g'.read 0xFF0F).getD 0).testBit k = ((g.read 0xFF0F).getD 0).testBit k) ∧
        g'.read (g.cpu.sp - 1) = some ((g.cpu.pc >>> 8) % 256) ∧
        g'.read (g.cpu.sp - 2) = some (g.cpu.pc % 256)) := by
  obtain ⟨⟨regs, sp, pc, ime, halted⟩, ppu, lcd, jp, tm, cart, wram, vram, oam, io, hram⟩ := g
  simp only at hsp1 hsp2 hif
  have hm : Gameboy.pending_mask ⟨⟨regs, sp, pc, ime, halted⟩, ppu, lcd, jp, tm, cart, wram, vram, oam, io, hram⟩ =
      hram.read 0xFFFF &&& io.read 0xFF0F := rfl
  rw [hm] at hp ⊢
  have hif2 : io.read 0xFF0F < 256 := hif
  have hchk : Gameboy.check_interrupts ⟨⟨regs, sp, pc, ime, halted⟩, ppu, lcd, jp, tm, cart, wram, vram, oam, io, hram⟩ =
      some (some (u8_trailing_zeros (hram.read 0xFFFF &&& io.read 0xFF0F))) := by
    show some (if hram.read 0xFFFF &&& io.read 0xFF0F = 0 then none
      else some (u8_trailing_zeros (hram.read 0xFFFF &&& io.read 0xFF0F))) = _
    rw [if_neg hp]
  have hn0 : hram.read 0xFFFF &&& io.read 0xFF0F < 256 :=
    lt_of_le_of_lt Nat.and_le_right hif2
  have hn7 : u8_trailing_zeros (hram.read 0xFFFF &&& io.read 0xFF0F) ≤ 7 :=
    u8tz_le_7 _ hn0 hp
  have hshift : ((1 : Nat) <<< u8_trailing_zeros (hram.read 0xFFFF &&& io.read 0xFF0F)) % 256 =
      2 ^ u8_trailing_zeros (hram.read 0xFFFF &&& io.read 0xFF0F) := by
    rw [Nat.shiftLeft_eq, one_mul]
    exact Nat.mod_eq_of_lt (lt_of_le_of_lt (Nat.pow_le_pow_right (by omega) hn7) (by norm_num))
  constructor
  · intro him
    subst him
    unfold Gameboy.executePhase
    rw [hchk]
    cases halted <;> rfl
  · intro him
    subst him
    have hex : Gameboy.executePhase ⟨⟨regs, sp, pc, true, halted⟩, ppu, lcd, jp, tm, cart, wram, vram, oam, io, hram⟩ =
        some (⟨⟨regs, sp - 2, 0x40 + 8 * u8_trailing_zeros (hram.read 0xFFFF &&& io.read 0xFF0F), false, false⟩,
          ppu, lcd, jp, tm, cart,
          (wram.write (sp - 1) ((pc >>> 8) % 256)).write (sp - 2) (pc % 256), vram, oam,
          io.write 0xFF0F (io.read 0xFF0F &&&
            (255 ^^^ (1 <<< u8_trailing_zeros (hram.read 0xFFFF &&& io.read 0xFF0F)) % 256)), hram⟩,
          .interruptServiced 5) := by
      unfold Gameboy.executePhase
      rw [hchk, optionSomeBind]
      cases halted <;>
      · show (Gameboy.service_interrupt ⟨⟨regs, sp, pc, true, false⟩, ppu, lcd, jp, tm, cart, wram, vram, oam, io, hram⟩
            (u8_trailing_zeros (hram.read 0xFFFF &&& io.read 0xFF0F)) >>=
          fun g2 => pure (g2, ExecOutcome.interruptServiced 5)) = _
        rw [Gameboy.service_interrupt_eq _ _ hsp1 hsp2, optionSomeBind]
        rfl
    refine ⟨_, hex, rfl, rfl, rfl, rfl, ?_, ?_, ?_, ?_⟩
    · show (io.read 0xFF0F &&&
          (255 ^^^ (1 <<< u8_trailing_zeros (hram.read 0xFFFF &&& io.read 0xFF0F)) % 256)).testBit
          (u8_trailing_zeros (hram.read 0xFFFF &&& io.read 0xFF0F)) = false
      rw [hshift, Nat.testBit_land, Nat.testBit_xor, testBit_255 _ hn7,
        Nat.testBit_two_pow_self]
      simp
    · intro k hk
      show (io.read 0xFF0F &&&
          (255 ^^^ (1 <<< u8_trailing_zeros (hram.read 0xFFFF &&& io.read 0xFF0F)) % 256)).testBit k =
        (io.read 0xFF0F).testBit k
      rw [hshift, Nat.testBit_land, Nat.testBit_xor,
        Nat.testBit_two_pow_of_ne (fun h => hk h.symm)]
      rcases Nat.lt_or_ge k 8 with hk8 | hk8
      · rw [testBit_255 _ (by omega)]
        simp
      · have hpk : (256 : Nat) ≤ 2 ^ k :=
          le_trans (by norm_num) (Nat.pow_le_pow_right (by norm_num) hk8)
        have e255 : (255 : Nat).testBit k = false :=
          Nat.testBit_eq_false_of_lt (by omega)
        have eif : (io.read 0xFF0F).testBit k = false :=
          Nat.testBit_eq_false_of_lt (by omega)
        rw [e255, eif]
        simp
    · show Gameboy.read _ (sp - 1) = some ((pc >>> 8) % 256)
      rw [Gameboy.read_wram_range _ _ (by omega) (by omega)]
      show some (((wram.write (sp - 1) ((pc >>> 8) % 256)).write (sp - 2) (pc % 256)).read (sp - 1)) = _
      rw [WorkRam.wram_write_read_other _ _ _ _ (by omega), WorkRam.wram_write_read_back]
    · show Gameboy.read _ (sp - 2) = some (pc % 256)
      rw [Gameboy.read_wram_range _ _ (by omega) (by omega)]
      show some (((wram.write (sp - 1) ((pc >>> 8) % 256)).write (sp - 2) (pc % 256)).read (sp - 2)) = _
      rw [WorkRam.wram_write_read_back]

/-- C3 witness: the dispatch theorem applied to the concrete state `gInt`
(IME set, halted, IF = IE = 0b100), whose pending timer interrupt is
serviced at vector 0x50. -/
theorem interrupt_dispatch_witness :
    gInt.pending_mask ≠ 0 ∧ (gInt.read 0xFF0F).getD 0 < 256 ∧
    0xC002 ≤ gInt.cpu.sp ∧ gInt.cpu.sp ≤ 0xDFFF ∧
    (∃ g', gInt.executePhase = some (g', .interruptServiced 5) ∧
      g'.cpu.ime = false ∧ g'.cpu.halted = false ∧
      g'.cpu.pc = 0x40 + 8 * u8_trailing_zeros gInt.pending_mask ∧
      g'.cpu.sp = gInt.cpu.sp - 2 ∧
      ((g'.read 0xFF0F).getD 0).testBit (u8_trailing_zeros gInt.pending_mask) = false ∧
      (∀ k, k ≠ u8_trailing_zeros gInt.pending_mask →
        ((g'.read 0xFF0F).getD 0).testBit k = ((gInt.read 0xFF0F).getD 0).testBit k) ∧
      g'.read (gInt.cpu.sp - 1) = some ((gInt.cpu.pc >>> 8) % 256) ∧
      g'.read (gInt.cpu.sp - 2) = some (gInt.cpu.pc % 256)) :=
  ⟨by decide, by decide, by decide, by decide,
    (interrupt_dispatch gInt (by decide) (by decide) (by decide) (by decide)).2 rfl⟩

/-- C4: `CpuRegisters::set_af` (the write path of `POP AF`) stores the
full low byte, including the low nibble: restoring AF = 0x010F leaves
F = 0x0F, so F &&& 0x0F = 0x0F ≠ 0 — the flags register's low nibble is
not cleared on writes, contradicting the claimed invariant. -/
theorem set_af_stores_full_low_byte :
    ((Cpu.init.registers.set_af 0x010F).flags &&& 0x0F = 0x0F) ∧
    (Cpu.init.registers.set_af 0x010F).flags = 0x0F ∧
    (Cpu.init.registers.set_af 0x010F).af = 0x010F := by
  refine ⟨by decide, by decide, by decide⟩

/-- C5 counterexample: with LCDC = 0x01 (bit 7, LCD enable, clear; bit 0,
background, set) and BGP = 0x01, a PPU tick of 20 m-cycles from the reset
state (OAMScan, 80 t-cycles accumulated) composes a scanline and writes
shade 1 into LCD pixel 1, although the claim says the framebuffer is never
written while LCDC bit 7 is clear. -/
theorem ppu_writes_lcd_with_lcd_disabled :
    ppuRegs.read 0xFF40 &&& 0b10000000 = 0 ∧ lcd0.pixels 1 = 0 ∧
    (Ppu.default.tick 20 vram0 oam0 ppuRegs lcd0).map (fun r => r.2.2.pixels 1) = some 1 := by
  refine ⟨rfl, rfl, ?_⟩
  decide

/-- C5 (amended): a PPU tick that crosses the 80-t-cycle OAMScan boundary
within the scanline composes the scanline with `Ppu::get_line` and commits
it to the LCD even when LCDC bit 7 (LCD enable) is clear — the enable bit
is never consulted, so the PPU runs and the framebuffer is written
regardless of it. -/
theorem ppu_composes_regardless_of_lcd_enable (p : Ppu) (m : Nat) (vram : VideoRam)
    (oam : Oam) (io : IORegs) (lcd : Lcd)
    (hmode : p.mode = PpuMode.OAMScan)
    (hlo : 80 ≤ p.line_cycles + (m * 4) % 256)
    (hhi : p.line_cycles + (m * 4) % 256 < 456)
    (hly : io.read 0xFF44 ≤ 144)
    (hlcd7 : io.read 0xFF40 &&& 0b10000000 = 0) :
    ∃ r, p.tick m vram oam io lcd = some r ∧
      r.1.mode = PpuMode.Drawing ∧
      (∀ i, i < 160 →
        r.2.2.pixels (io.read 0xFF44 * 160 + i) =
          (({ p with line_cycles := p.line_cycles + (m * 4) % 256 }).get_line
              (io.read 0xFF44) vram oam io).1 i) ∧
      (∀ j, j < io.read 0xFF44 * 160 ∨ io.read 0xFF44 * 160 + 160 ≤ j →
        r.2.2.pixels j = lcd.pixels j) := by
  unfold Ppu.tick
  rw [if_neg (show ¬(456 ≤ ({ p with line_cycles := p.line_cycles + (m * 4) % 256 } : Ppu).line_cycles) from by
    simp only []
    omega)]
  rw [if_pos (show ({ p with line_cycles := p.line_cycles + (m * 4) % 256 } : Ppu).mode = PpuMode.OAMScan ∧
      80 ≤ ({ p with line_cycles := p.line_cycles + (m * 4) % 256 } : Ppu).line_cycles from ⟨hmode, hlo⟩)]
  rcases hgl : Ppu.get_line { p with line_cycles := p.line_cycles + (m * 4) % 256 }
      (io.read 0xFF44) vram oam io with ⟨line, p2⟩
  dsimp only
  unfold Lcd.set_line
  rw [if_pos (show (io.read 0xFF44 + 1) * 160 ≤ 23200 from by omega)]
  simp only [Option.bind_eq_bind, Option.some_bind]
  refine ⟨_, rfl, rfl, ?_, ?_⟩
  · intro i hi
    simp only []
    rw [if_pos (by constructor <;> omega)]
    have e : io.read 0xFF44 * 160 + i - io.read 0xFF44 * 160 = i := by omega
    rw [e]
  · intro j hj
    simp only []
    rw [if_neg (by omega)]

/-- C5 witness: the amended theorem applied to the reset PPU, a 20-m-cycle
tick, all-zero VRAM/OAM/LCD and `ppuRegs` (LCDC = 0x01, bit 7 clear). -/
theorem ppu_composes_regardless_of_lcd_enable_witness :
    Ppu.default.mode = PpuMode.OAMScan ∧
    80 ≤ Ppu.default.line_cycles + (20 * 4) % 256 ∧
    Ppu.default.line_cycles + (20 * 4) % 256 < 456 ∧
    ppuRegs.read 0xFF44 ≤ 144 ∧
    ppuRegs.read 0xFF40 &&& 0b10000000 = 0 ∧
    (∃ r, Ppu.default.tick 20 vram0 oam0 ppuRegs lcd0 = some r ∧
      r.1.mode = PpuMode.Drawing ∧
      (∀ i, i < 160 →
        r.2.2.pixels (ppuRegs.read 0xFF44 * 160 + i) =
          (({ Ppu.default with
                line_cycles := Ppu.default.line_cycles + (20 * 4) % 256 }).get_line
              (ppuRegs.read 0xFF44) vram0 oam0 ppuRegs).1 i) ∧
      (∀ j, j < ppuRegs.read 0xFF44 * 160 ∨ ppuRegs.read 0xFF44 * 160 + 160 ≤ j →
        r.2.2.pixels j = lcd0.pixels j)) :=
  ⟨rfl, by decide, by decide, by decide, by decide,
    ppu_composes_regardless_of_lcd_enable Ppu.default 20 vram0 oam0 ppuRegs lcd0
      rfl (by decide) (by decide) (by decide) (by decide)⟩

/-- C6: `MBC3::write` aborts on the RTC paths rather than accepting the
writes: a write of 0x04 (greater than 0x03) to 0x4000 hits
`todo!("implement rtc registers")` and a write to 0x6000 hits
`todo!("latch rtc register")`, both panics; a write of 0x02 to 0x4000 does
select RAM bank 2. -/
theorem mbc3_rtc_writes_panic :
    mbc3Cart.write 0x4000 0x04 = none ∧ mbc3Cart.write 0x6000 0x00 = none ∧
    (mbc3Cart.write 0x4000 0x02).map (fun m => m.active_ram_bank) = some 2 := by
  refine ⟨rfl, rfl, rfl⟩

/-- C7: on an MBC1 with 8 KiB RAM enabled, writing 0x42 to 0xA000 and
reading 0xA000 back returns 0 (the RAM's initial value), not 0x42:
`MBC1::write` has no 0xA000–0xBFFF arm, so cartridge-RAM stores are
silently dropped. -/
theorem mbc1_ram_write_dropped :
    ((mbc1RamCart.write 0xA000 0x42).bind (fun m => m.read 0xA000)) = some 0 ∧
    mbc1RamCart.ram_active = true ∧ mbc1RamCart.ram_size = 8192 := by
  refine ⟨rfl, rfl, rfl⟩

/-- C8: cartridge reads of the external-RAM window can fault.  A NoMBC
cartridge with a 32 KiB ROM panics (out-of-bounds ROM index) on a read of
0xA000, and an MBC1 with no RAM panics (out-of-bounds RAM index) there
too; the same read through the bus of a freshly built Gameboy with the
NoMBC cartridge also faults. -/
theorem cartridge_ram_read_faults :
    Cartridge.read (.noMBC nombcCart) 0xA000 = none ∧
    Cartridge.read (.mbc1 mbc1NoRam) 0xA000 = none ∧
    (Gameboy.new_dmg cart0).read 0xA000 = none := by
  refine ⟨rfl, rfl, rfl⟩

/-- C9: a bus write of value v to 0xFF46 performs a synchronous OAM DMA.
Provided the 160 bus reads of the source block (v % 256) <<< 8 ||| j all
succeed (taken on the state with the 0xFF46 register already updated, as
in the code), the write succeeds and afterwards every OAM byte read at
0xFE00+i equals the bus read of that source byte; in particular a write
of 0xC0 succeeds unconditionally (the source is WRAM) and leaves every
OAM byte at 0xFE00+i equal to the pre-write bus read at 0xC000+i. -/
theorem oam_dma_copies_source (g : Gameboy) (v i : Nat) (hi : i < 160)
    (hsrc : ∀ j, j < 160 →
      (Gameboy.read { g with io_regs := g.io_regs.write 0xFF46 v }
        (((v % 256) <<< 8) ||| j)).isSome = true) :
    (∃ g', g.write 0xFF46 v = some g' ∧
      g'.read (0xFE00 + i) =
        Gameboy.read { g with io_regs := g.io_regs.write 0xFF46 v }
          (((v % 256) <<< 8) ||| i)) ∧
    (∃ g', g.write 0xFF46 0xC0 = some g' ∧
      g'.read (0xFE00 + i) = g.read (0xC000 + i)) := by
  constructor
  · rw [Gameboy.write_dma]
    have hall : ({ g with io_regs := g.io_regs.write 0xFF46 v } : Gameboy).dmaBlock ((v % 256) <<< 8) =
        some (fun j => (({ g with io_regs := g.io_regs.write 0xFF46 v } : Gameboy).read (((v % 256) <<< 8) ||| j)).getD 0) := by
      unfold Gameboy.dmaBlock
      rw [if_pos]
      rw [List.all_eq_true]
      intro j hj
      exact hsrc j (List.mem_range.mp hj)
    rw [hall]
    refine ⟨_, rfl, ?_⟩
    rw [Gameboy.read_oam_range _ _ (by omega) (by omega)]
    simp only [Oam.dma, Oam.read]
    have h1 : 0xFE00 + i - 0xFE00 = i := by omega
    rw [h1]
    obtain ⟨x, hx⟩ := Option.isSome_iff_exists.mp (hsrc i hi)
    rw [hx]
    rfl
  · have hbase : ((0xC0 : Nat) % 256) <<< 8 = 0xC000 := by decide
    rw [Gameboy.write_dma, hbase]
    have hall : ({ g with io_regs := g.io_regs.write 0xFF46 0xC0 } : Gameboy).dmaBlock 0xC000 =
        some (fun j => (({ g with io_regs := g.io_regs.write 0xFF46 0xC0 } : Gameboy).read (0xC000 ||| j)).getD 0) := by
      unfold Gameboy.dmaBlock
      rw [if_pos]
      rw [List.all_eq_true]
      intro j hj
      have hj' : j < 160 := List.mem_range.mp hj
      rw [lor_c000 j (by omega), Gameboy.read_wram_range _ _ (by omega) (by omega)]
      rfl
    rw [hall]
    refine ⟨_, rfl, ?_⟩
    rw [Gameboy.read_oam_range _ _ (by omega) (by omega),
      Gameboy.read_wram_range _ _ (by omega) (by omega)]
    simp only [Oam.dma, Oam.read]
    have h1 : 0xFE00 + i - 0xFE00 = i := by omega
    rw [h1, lor_c000 i (by omega), Gameboy.read_wram_range _ _ (by omega) (by omega)]
    rfl

/-- C9 witness: the DMA theorem applied to a freshly built Gameboy with
value 0xC0 at OAM index 3, both hypotheses discharged by evaluation. -/
theorem oam_dma_copies_source_witness :
    (3 : Nat) < 160 ∧
    (∀ j, j < 160 →
      (Gameboy.read { Gameboy.new_dmg cart0 with
          io_regs := (Gameboy.new_dmg cart0).io_regs.write 0xFF46 0xC0 }
        (((0xC0 % 256) <<< 8) ||| j)).isSome = true) ∧
    ((∃ g', (Gameboy.new_dmg cart0).write 0xFF46 0xC0 = some g' ∧
        g'.read (0xFE00 + 3) =
          Gameboy.read { Gameboy.new_dmg cart0 with
              io_regs := (Gameboy.new_dmg cart0).io_regs.write 0xFF46 0xC0 }
            (((0xC0 % 256) <<< 8) ||| 3)) ∧
      (∃ g', (Gameboy.new_dmg cart0).write 0xFF46 0xC0 = some g' ∧
        g'.read (0xFE00 + 3) = (Gameboy.new_dmg cart0).read (0xC000 + 3))) :=
  ⟨by decide, by decide,
    oam_dma_copies_source (Gameboy.new_dmg cart0) 0xC0 3 (by decide) (by decide)⟩

/-- C10: a freshly constructed DMG Gameboy has the post-boot-ROM CPU
state: A=0x01, F=0xB0, B=0x00, C=0x13, D=0x00, E=0xD8, H=0x01, L=0x4D,
SP=0xFFFE, PC=0x0100, IME=false, HALT=false (via the spec-modelled
`Cpu::init`). -/
theorem new_dmg_cpu_state (cart : Cartridge) :
    (Gameboy.new_dmg cart).cpu.registers.a = 0x01 ∧
    (Gameboy.new_dmg cart).cpu.registers.flags = 0xB0 ∧
    (Gameboy.new_dmg cart).cpu.registers.b = 0x00 ∧
    (Gameboy.new_dmg cart).cpu.registers.c = 0x13 ∧
    (Gameboy.new_dmg cart).cpu.registers.d = 0x00 ∧
    (Gameboy.new_dmg cart).cpu.registers.e = 0xD8 ∧
    (Gameboy.new_dmg cart).cpu.registers.h = 0x01 ∧
    (Gameboy.new_dmg cart).cpu.registers.l = 0x4D ∧
    (Gameboy.new_dmg cart).cpu.sp = 0xFFFE ∧
    (Gameboy.new_dmg cart).cpu.pc = 0x0100 ∧
    (Gameboy.new_dmg cart).cpu.ime = false ∧
    (Gameboy.new_dmg cart).cpu.halted = false :=
  ⟨rfl, rfl, rfl, rfl, rfl, rfl, rfl, rfl, rfl, rfl, rfl, rfl⟩
